import Mathlib

/-
Verification of the HGVS variant-notation core of mavedb-convert.

The development shallowly embeds src/mavedbconvert/enrich2.py and
src/mavedbconvert/base.py. Helper modules of the package that are not part
of the staged sources (utilities, constants, and the hgvsp grammar) are
modelled from the specification; every such definition carries a doc
comment starting with "Modelled from the spec:". Python exceptions are
modelled by the PyErr type, and every fallible operation returns
Except PyErr; bindE is Python's exception propagation.
-/

/-- A Python exception, distinguished by its class and message. -/
inductive PyErr where
  | valueError (msg : String)
  | indexError (msg : String)
  | attributeError (msg : String)
  | keyError (msg : String)
  | typeError (msg : String)
deriving DecidableEq, Repr

deriving instance DecidableEq for Except

/-- Python exception propagation: evaluate the rest of the statement block
only when no exception was raised. -/
def bindE {α β : Type} (x : Except PyErr α) (f : α → Except PyErr β) : Except PyErr β :=
  match x with
  | Except.error e => Except.error e
  | Except.ok a => f a

@[simp] theorem bindE_ok {α β : Type} (a : α) (f : α → Except PyErr β) :
    bindE (Except.ok a) f = f a := rfl

@[simp] theorem bindE_error {α β : Type} (e : PyErr) (f : α → Except PyErr β) :
    bindE (Except.error e) f = Except.error e := rfl

/-! ## Python string and list semantics -/

/-- Accumulator pass for pySplit. -/
def splitCharAux (sep : Char) : List Char → List Char → List String
  | [], acc => [String.mk acc.reverse]
  | x :: xs, acc =>
    if x = sep then String.mk acc.reverse :: splitCharAux sep xs []
    else splitCharAux sep xs (x :: acc)

/-- Python str.split with an explicit one-character separator: keeps empty
pieces, and splitting the empty string yields one empty piece. -/
def pySplit (sep : Char) (s : String) : List String := splitCharAux sep s.data []

/-- Python str.strip(): removes whitespace from both ends. -/
def pyStrip (s : String) : String :=
  String.mk (((s.data.dropWhile Char.isWhitespace).reverse.dropWhile Char.isWhitespace).reverse)

/-- Python sep.join(pieces). -/
def pyJoin (sep : String) : List String → String
  | [] => ""
  | [x] => x
  | x :: xs => x ++ sep ++ pyJoin sep xs

/-- Python len() of a string. -/
def pyLen (s : String) : Nat := s.data.length

/-- Upper-case an ASCII letter. -/
def pyUpperChar (c : Char) : Char :=
  if 'a' ≤ c ∧ c ≤ 'z' then Char.ofNat (c.toNat - 32) else c

/-- Python str.upper() for the ASCII alphabet used by DNA codons. -/
def pyUpper (s : String) : String := String.mk (s.data.map pyUpperChar)

/-- Whether pat occurs as a contiguous sublist. -/
def infixAux (pat : List Char) : List Char → Bool
  | [] => pat.isEmpty
  | x :: xs => pat.isPrefixOf (x :: xs) || infixAux pat xs

/-- Python "pat in s" substring membership. -/
def pyIn (pat : String) (s : String) : Bool := infixAux pat.data s.data

/-- Python s.startswith(pat). -/
def pyStartsWith (pat s : String) : Bool := pat.data.isPrefixOf s.data

/-- Python s.endswith(pat). -/
def pyEndsWith (pat s : String) : Bool := pat.data.reverse.isPrefixOf s.data.reverse

/-- Python string indexing s[i]: one negative wrap, IndexError out of range. -/
def pyStrGet (s : String) (i : Int) : Except PyErr Char :=
  let j : Int := if i < 0 then i + (s.data.length : Int) else i
  if j < 0 then Except.error (PyErr.indexError "string index out of range")
  else
    match s.data[j.toNat]? with
    | some c => Except.ok c
    | none => Except.error (PyErr.indexError "string index out of range")

/-- Python list indexing l[i]: one negative wrap, IndexError out of range. -/
def pyGetItem {α : Type} (l : List α) (i : Int) : Except PyErr α :=
  let j : Int := if i < 0 then i + (l.length : Int) else i
  if j < 0 then Except.error (PyErr.indexError "list index out of range")
  else
    match l[j.toNat]? with
    | some x => Except.ok x
    | none => Except.error (PyErr.indexError "list index out of range")

/-- A Python loop that builds a list, aborting at the first exception. -/
def mapME {α β : Type} (f : α → Except PyErr β) : List α → Except PyErr (List β)
  | [] => Except.ok []
  | x :: xs =>
    bindE (f x) (fun y => bindE (mapME f xs) (fun ys => Except.ok (y :: ys)))

/-- A Python loop run for effect only, aborting at the first exception. -/
def forME {α : Type} (f : α → Except PyErr Unit) : List α → Except PyErr Unit
  | [] => Except.ok ()
  | x :: xs => bindE (f x) (fun _ => forME f xs)

/-- A Python loop threading an accumulator, aborting at the first exception. -/
def foldlME {α β : Type} (f : β → α → Except PyErr β) (init : β) : List α → Except PyErr β
  | [] => Except.ok init
  | x :: xs => bindE (f init x) (fun b => foldlME f b xs)

/-- Number of distinct elements, the length of the Python set() of a list. -/
def distinctCount {α : Type} [DecidableEq α] : List α → Nat
  | [] => 0
  | x :: xs => (if x ∈ xs then 0 else 1) + distinctCount xs

/-! ## Constants modelled from the spec -/

/-- Modelled from the spec: the fixed sentinel marker strings denoting
"wild type" and "synonymous", which bypass all parsing and validation
(constants.special_variants is not among the staged sources). -/
def special_variants : List String := ["_wt", "_sy"]

/-- Modelled from the spec: the element tag designating the synonymous-only
table (constants.synonymous_table is not among the staged sources). -/
def synonymous_table : String := "synonymous"

/-- Modelled from the spec: the recognized nucleotide-type HGVS first
characters (hgvsp.constants.dna_prefix is an external collaborator). -/
def dnaPfxChars : List Char := ['c', 'g', 'n', 'm']

/-- A DNA base symbol accepted by the substitution grammar. -/
def isDnaBase (c : Char) : Bool := c == 'A' || c == 'C' || c == 'G' || c == 'T'

/-- Modelled from the spec: the standard codon to one-letter amino-acid
lookup, keyed by a base triple (constants.CODON_TABLE is not among the
staged sources). -/
def codonLookup (a b c : Char) : Option Char :=
  match a, b, c with
  | 'A', 'A', 'A' => some 'K'
  | 'A', 'A', 'C' => some 'N'
  | 'A', 'A', 'G' => some 'K'
  | 'A', 'A', 'T' => some 'N'
  | 'A', 'C', 'A' => some 'T'
  | 'A', 'C', 'C' => some 'T'
  | 'A', 'C', 'G' => some 'T'
  | 'A', 'C', 'T' => some 'T'
  | 'A', 'G', 'A' => some 'R'
  | 'A', 'G', 'C' => some 'S'
  | 'A', 'G', 'G' => some 'R'
  | 'A', 'G', 'T' => some 'S'
  | 'A', 'T', 'A' => some 'I'
  | 'A', 'T', 'C' => some 'I'
  | 'A', 'T', 'G' => some 'M'
  | 'A', 'T', 'T' => some 'I'
  | 'C', 'A', 'A' => some 'Q'
  | 'C', 'A', 'C' => some 'H'
  | 'C', 'A', 'G' => some 'Q'
  | 'C', 'A', 'T' => some 'H'
  | 'C', 'C', 'A' => some 'P'
  | 'C', 'C', 'C' => some 'P'
  | 'C', 'C', 'G' => some 'P'
  | 'C', 'C', 'T' => some 'P'
  | 'C', 'G', 'A' => some 'R'
  | 'C', 'G', 'C' => some 'R'
  | 'C', 'G', 'G' => some 'R'
  | 'C', 'G', 'T' => some 'R'
  | 'C', 'T', 'A' => some 'L'
  | 'C', 'T', 'C' => some 'L'
  | 'C', 'T', 'G' => some 'L'
  | 'C', 'T', 'T' => some 'L'
  | 'G', 'A', 'A' => some 'E'
  | 'G', 'A', 'C' => some 'D'
  | 'G', 'A', 'G' => some 'E'
  | 'G', 'A', 'T' => some 'D'
  | 'G', 'C', 'A' => some 'A'
  | 'G', 'C', 'C' => some 'A'
  | 'G', 'C', 'G' => some 'A'
  | 'G', 'C', 'T' => some 'A'
  | 'G', 'G', 'A' => some 'G'
  | 'G', 'G', 'C' => some 'G'
  | 'G', 'G', 'G' => some 'G'
  | 'G', 'G', 'T' => some 'G'
  | 'G', 'T', 'A' => some 'V'
  | 'G', 'T', 'C' => some 'V'
  | 'G', 'T', 'G' => some 'V'
  | 'G', 'T', 'T' => some 'V'
  | 'T', 'A', 'A' => some '*'
  | 'T', 'A', 'C' => some 'Y'
  | 'T', 'A', 'G' => some '*'
  | 'T', 'A', 'T' => some 'Y'
  | 'T', 'C', 'A' => some 'S'
  | 'T', 'C', 'C' => some 'S'
  | 'T', 'C', 'G' => some 'S'
  | 'T', 'C', 'T' => some 'S'
  | 'T', 'G', 'A' => some '*'
  | 'T', 'G', 'C' => some 'C'
  | 'T', 'G', 'G' => some 'W'
  | 'T', 'G', 'T' => some 'C'
  | 'T', 'T', 'A' => some 'L'
  | 'T', 'T', 'C' => some 'F'
  | 'T', 'T', 'G' => some 'L'
  | 'T', 'T', 'T' => some 'F'
  | _, _, _ => none

/-- Modelled from the spec: the codon table as a dictionary keyed by a
three-character codon string. -/
def CODON_TABLE (s : String) : Option Char :=
  match s.data with
  | [a, b, c] => codonLookup a b c
  | _ => none

/-- Modelled from the spec: the one-letter to three-letter amino-acid code
mapping (constants.AA_CODES is not among the staged sources). -/
def AA_CODES (a : Char) : Option String :=
  match a with
  | 'A' => some "Ala"
  | 'R' => some "Arg"
  | 'N' => some "Asn"
  | 'D' => some "Asp"
  | 'C' => some "Cys"
  | 'E' => some "Glu"
  | 'Q' => some "Gln"
  | 'G' => some "Gly"
  | 'H' => some "His"
  | 'I' => some "Ile"
  | 'L' => some "Leu"
  | 'K' => some "Lys"
  | 'M' => some "Met"
  | 'F' => some "Phe"
  | 'P' => some "Pro"
  | 'S' => some "Ser"
  | 'T' => some "Thr"
  | 'W' => some "Trp"
  | 'Y' => some "Tyr"
  | 'V' => some "Val"
  | '*' => some "Ter"
  | _ => none

/-- Python dictionary access into CODON_TABLE: KeyError on a missing key. -/
def codonTableGet (s : String) : Except PyErr Char :=
  match CODON_TABLE s with
  | some a => Except.ok a
  | none => Except.error (PyErr.keyError s)

/-- Python dictionary access into AA_CODES: KeyError on a missing key. -/
def aaCodesGet (a : Char) : Except PyErr String :=
  match AA_CODES a with
  | some s => Except.ok s
  | none => Except.error (PyErr.keyError (String.mk [a]))

/-- The three-letter amino-acid codes accepted by the protein grammar. -/
def aaCodes3 : List String :=
  ["Ala", "Arg", "Asn", "Asp", "Cys", "Glu", "Gln", "Gly", "His", "Ile",
   "Leu", "Lys", "Met", "Phe", "Pro", "Ser", "Thr", "Trp", "Tyr", "Val", "Ter"]

/-! ## Substitution events modelled from the spec -/

/-- Modelled from the spec: a single nucleotide substitution event with a
1-based (mutable, hence Int after offsetting) position, reference and
alternate symbols (none encodes the silent "=" form), and the original
token kept as the variant attribute. -/
structure NtSubEvent where
  pfxChar : Char
  position : Int
  ref : Option Char
  alt : Option Char
  variant : String
deriving DecidableEq, Repr

/-- Modelled from the spec: the silent flag is true when the alternate is
the synonymous marker or equals the reference. -/
def NtSubEvent.silent (e : NtSubEvent) : Bool := e.alt.isNone || e.ref == e.alt

/-- Modelled from the spec: codon position is the ceiling of position / 3. -/
def NtSubEvent.codonPos (e : NtSubEvent) : Int := (e.position + 2) / 3

/-- Modelled from the spec: the within-codon frame position,
((position - 1) mod 3) + 1. -/
def NtSubEvent.framePos (e : NtSubEvent) : Int := (e.position - 1) % 3 + 1

/-- Modelled from the spec: canonical re-serialization from current field
values. -/
def NtSubEvent.format (e : NtSubEvent) : String :=
  match e.ref, e.alt with
  | some r, some a =>
    String.mk [e.pfxChar] ++ "." ++ toString e.position ++ String.mk [r] ++ ">" ++ String.mk [a]
  | _, _ => String.mk [e.pfxChar] ++ "." ++ toString e.position ++ "="

/-- Digits of a decimal literal folded into a Nat. -/
def digitsToNat (ds : List Char) : Nat :=
  ds.foldl (fun acc c => acc * 10 + (c.toNat - 48)) 0

/-- The MalformedVariant failure of the event constructors. -/
def malformedVariantErr (s : String) : PyErr :=
  PyErr.valueError ("MalformedVariant: " ++ s)

/-- Modelled from the spec: utilities.NucleotideSubstitutionEvent validates
a token against the nucleotide substitution grammar
(prefix.positionRef>Alt, or the silent prefix.position= form) and fails
with MalformedVariant otherwise. -/
def NucleotideSubstitutionEvent (s : String) : Except PyErr NtSubEvent :=
  match s.data with
  | p :: '.' :: rest =>
    if p ∈ dnaPfxChars then
      let ds := rest.takeWhile Char.isDigit
      let rest2 := rest.dropWhile Char.isDigit
      if ds = [] then Except.error (malformedVariantErr s)
      else
        let pos : Int := (digitsToNat ds : Int)
        match rest2 with
        | ['='] => Except.ok ⟨p, pos, none, none, s⟩
        | [r, '>', a] =>
          if isDnaBase r && isDnaBase a then Except.ok ⟨p, pos, some r, some a, s⟩
          else Except.error (malformedVariantErr s)
        | _ => Except.error (malformedVariantErr s)
    else Except.error (malformedVariantErr s)
  | _ => Except.error (malformedVariantErr s)

/-- Modelled from the spec: a single protein substitution event; alt none
encodes the silent "=" form. -/
structure ProSubEvent where
  position : Int
  ref : String
  alt : Option String
  variant : String
deriving DecidableEq, Repr

/-- Modelled from the spec: canonical protein re-serialization, including the
special silent syntax p.AApos= when no alternate is given. -/
def ProSubEvent.format (e : ProSubEvent) : String :=
  "p." ++ e.ref ++ toString e.position ++ (match e.alt with | some a => a | none => "=")

/-- Modelled from the spec: utilities.ProteinSubstitutionEvent validates a
token against the protein substitution grammar (p.RefAApositionAltAA or the
silent p.RefAAposition= form) and fails with MalformedVariant otherwise. -/
def ProteinSubstitutionEvent (s : String) : Except PyErr ProSubEvent :=
  match s.data with
  | 'p' :: '.' :: rest =>
    let letters := rest.takeWhile Char.isAlpha
    let rest2 := rest.dropWhile Char.isAlpha
    let refCode := String.mk letters
    if refCode ∈ aaCodes3 then
      let ds := rest2.takeWhile Char.isDigit
      let rest3 := rest2.dropWhile Char.isDigit
      if ds = [] then Except.error (malformedVariantErr s)
      else
        let pos : Int := (digitsToNat ds : Int)
        match rest3 with
        | ['='] => Except.ok ⟨pos, refCode, none, s⟩
        | _ =>
          let altCode := String.mk rest3
          if altCode ∈ aaCodes3 then Except.ok ⟨pos, refCode, some altCode, s⟩
          else Except.error (malformedVariantErr s)
    else Except.error (malformedVariantErr s)
  | _ => Except.error (malformedVariantErr s)

/-- Modelled from the spec: utilities.format_variant normalizes a raw token
by stripping surrounding whitespace. -/
def format_variant (s : String) : String := pyStrip s

/-- Modelled from the spec: re-serialization of a nucleotide event list under
a shared prefix; a single event keeps the plain form, several events get a
bracketed semicolon-separated list. -/
def hgvs_nt_from_event_list (events : List String) (p : Char) : String :=
  match events with
  | [e] => String.mk [p] ++ "." ++ e
  | _ => String.mk [p] ++ ".[" ++ pyJoin ";" events ++ "]"

/-- Modelled from the spec: protein counterpart of the event-list
serialization. -/
def hgvs_pro_from_event_list (events : List String) : String :=
  match events with
  | [e] => "p." ++ e
  | _ => "p.[" ++ pyJoin ";" events ++ "]"

/-- Triplet chunking of a character list; the last chunk may be partial. -/
def chunks3 : List Char → List (List Char)
  | [] => []
  | [a] => [[a]]
  | [a, b] => [[a, b]]
  | a :: b :: c :: rest => [a, b, c] :: chunks3 rest

/-- Modelled from the spec: the sequence sliced into non-overlapping
triplets (the source's generic utilities.slicer is used with size 3 only). -/
def slicer3 (s : String) : List String := (chunks3 s.data).map String.mk

/-- Modelled from the spec: codon-wise translation of a DNA string through
the codon table (utilities.translate_dna is not among the staged sources). -/
def translate_dna (s : String) : Except PyErr String :=
  bindE (mapME codonTableGet (slicer3 s)) (fun cs => Except.ok (String.mk cs))

/-- Modelled from the spec: a multi-variant HGVS string carries a bracketed
event list (hgvsp.is_multi is an external collaborator). -/
def is_multi (s : String) : Bool := pyIn "[" s

/-- Modelled from the spec: utilities.split_variant splits a bracketed
multi-variant into single-event strings, reattaching the two-character
prefix. -/
def split_variant (s : String) : List String :=
  let pfx := String.mk (s.data.take 2)
  let inner := (((s.data.drop 2).dropWhile (fun c => c ≠ '[')).drop 1).takeWhile (fun c => c ≠ ']')
  (pySplit ';' (String.mk inner)).map (fun e => pfx ++ e)

/-! ## enrich2.apply_offset (src/mavedbconvert/enrich2.py lines 30-73) -/

/-- The nucleotide half of one apply_offset loop iteration (lines 40-49):
parse, subtract the offset from the position, raise ValueError if the result
drops below 1, otherwise re-serialize. -/
def apply_offset_nt (offset : Int) (tok : String) : Except PyErr String :=
  bindE (NucleotideSubstitutionEvent tok) (fun ev =>
    let ev2 : NtSubEvent := { ev with position := ev.position - offset }
    if ev2.position < 1 then
      Except.error (PyErr.valueError ("Position after offset " ++ toString offset ++
        " applied to " ++ ev2.variant ++ " is negative."))
    else Except.ok ev2.format)

/-- In the source's protein branch the error message is built from
nt.variant, but at that point the local nt is either None (bare protein
token) or the plain string produced by nt.format; neither carries a variant
attribute, so Python raises AttributeError while formatting the message. -/
def pyAttrVariant (nt : Option String) : Except PyErr String :=
  match nt with
  | none => Except.error (PyErr.attributeError "NoneType object has no attribute variant")
  | some _ => Except.error (PyErr.attributeError "str object has no attribute variant")

/-- Line 56: adjusted_offset = (1, -1)[offset < 0] * (abs(offset) // 3). -/
def adjustedOffset (offset : Int) : Int :=
  (if offset < 0 then -1 else 1) * ((offset.natAbs / 3 : Nat) : Int)

/-- The protein half of one apply_offset loop iteration (lines 50-66):
strip surrounding parentheses, parse, subtract the codon-scaled offset,
raise if the position drops below 1 (the raise itself faults on nt.variant),
otherwise re-serialize and reattach the parentheses. -/
def apply_offset_pro (offset : Int) (nt : Option String) (tok : String) : Except PyErr String :=
  let useBrackets := pyStartsWith "(" tok && pyEndsWith ")" tok
  let tok2 := if useBrackets then String.mk ((tok.data.drop 1).dropLast) else tok
  bindE (ProteinSubstitutionEvent tok2) (fun ev =>
    let adj := adjustedOffset offset
    let ev2 : ProSubEvent := { ev with position := ev.position - adj }
    if ev2.position < 1 then
      bindE (pyAttrVariant nt) (fun v =>
        Except.error (PyErr.valueError ("Position after offset " ++ toString adj ++
          " applied to " ++ v ++ " is negative.")))
    else
      let out := ev2.format
      Except.ok (if useBrackets then "(" ++ out ++ ")" else out))

/-- One comma-segment of apply_offset (the loop body, lines 32-71): classify
the stripped segment as a dual token, a bare protein token (first character
p, IndexError when the segment is empty) or a bare nucleotide token, apply
both halves, and reassemble "nt pro" stripped. -/
def apply_offset_token (offset : Int) (v : String) : Except PyErr String :=
  let sv := pyStrip v
  let halves : Except PyErr (Option String × Option String) :=
    match pySplit ' ' sv with
    | [ntTok, proTok] => Except.ok (some ntTok, some proTok)
    | _ =>
      match sv.data with
      | [] => Except.error (PyErr.indexError "string index out of range")
      | c :: _ => if c = 'p' then Except.ok (none, some sv) else Except.ok (some sv, none)
  bindE halves (fun h =>
    bindE (match h.1 with
      | none => Except.ok none
      | some t => bindE (apply_offset_nt offset t) (fun s => Except.ok (some s))) (fun nt =>
    bindE (match h.2 with
      | none => Except.ok none
      | some t => bindE (apply_offset_pro offset nt t) (fun s => Except.ok (some s))) (fun pro =>
    Except.ok (pyStrip ((match nt with | none => "" | some s => s) ++ " " ++
      (match pro with | none => "" | some s => s))))))

/-- enrich2.apply_offset (lines 30-73): process every comma-segment in order,
aborting at the first exception, and join the results with ", ". -/
def apply_offset (variant : String) (offset : Int) : Except PyErr String :=
  bindE (mapME (apply_offset_token offset) (pySplit ',' variant)) (fun pieces =>
    Except.ok (pyJoin ", " pieces))

/-! ## enrich2.fix_silent_hgvs_syntax (lines 76-85) -/

/-- One loop iteration of fix_silent_hgvs_syntax: a segment whose stripped
space-split is not exactly two parts is appended, then the two-way tuple
unpacking nt, pro = v.strip().split(' ') runs unconditionally and raises
ValueError for those very segments. -/
def fix_silent_token (acc : List String) (v : String) : Except PyErr (List String) :=
  let parts := pySplit ' ' (pyStrip v)
  let acc2 := if parts.length ≠ 2 then acc ++ [v] else acc
  match parts with
  | [_, _] => Except.ok acc2
  | _ =>
    if parts.length < 2 then
      Except.error (PyErr.valueError ("not enough values to unpack (expected 2, got " ++
        toString parts.length ++ ")"))
    else Except.error (PyErr.valueError "too many values to unpack (expected 2)")

/-- The source's fix_silent_hgvs_syntax helper (enrich2.py lines 76-85),
embedded as written (the name here drops the final word): it is not a
pass-through. -/
def fix_silent_hgvs (variant : String) : Except PyErr String :=
  bindE (foldlME fix_silent_token [] (pySplit ',' variant)) (fun vs =>
    Except.ok (pyJoin ", " vs))

/-! ## enrich2.Enrich2.infer_silent_aa_substitution (lines 480-555) -/

/-- Stable insertion of an event into a position-sorted list: the new event
goes before the first event whose position is not smaller. -/
def insertByPos (v : NtSubEvent) : List NtSubEvent → List NtSubEvent
  | [] => [v]
  | w :: ws => if w.position < v.position then w :: insertByPos v ws else v :: w :: ws

/-- Python sorted(..., key=position): a stable sort by position. -/
def sortByPos : List NtSubEvent → List NtSubEvent
  | [] => []
  | v :: vs => insertByPos v (sortByPos vs)

/-- The per-event pass of infer_silent_aa_substitution (lines 514-535):
bounds check against the wild-type length, then either force ref and alt of
a silent event to the wild-type base, or check a non-silent event's claimed
reference against the wild-type base. -/
def infer_check_event (wt : String) (offset : Int) (row : String) (v : NtSubEvent) :
    Except PyErr NtSubEvent :=
  if v.position > (pyLen wt : Int) then
    Except.error (PyErr.indexError ("Error inferring corrected synonymous syntax. Coordinate " ++
      toString v.position ++ " (1-based) is out of bounds in " ++ v.variant ++
      ". The maximum 1-based index of the wild-type sequence (offset " ++ toString offset ++
      ") is " ++ toString (pyLen wt) ++ " (length " ++ toString (pyLen wt) ++ ")."))
  else if v.silent then
    bindE (pyStrGet wt (v.position - 1)) (fun c =>
      Except.ok { v with ref := some c, alt := some c })
  else
    bindE (pyStrGet wt (v.position - 1)) (fun c =>
      if v.ref ≠ some c then
        Except.error (PyErr.valueError ("Error inferring corrected synonymous syntax. Base '" ++
          String.mk [c] ++ "' at position " ++ toString v.position ++
          " (1-based) in the wild-type sequence (offset " ++ toString offset ++
          ") does not match the base suggested by variant '" ++ v.variant ++
          "' in row '" ++ row ++ "'."))
      else Except.ok v)

/-- One splice of the mutant-codon loop (lines 541-544):
mut = mut[:frame-1] + alt + mut[frame:]; concatenating a missing alternate
is Python's TypeError. -/
def spliceStep (mc : String) (v : NtSubEvent) : Except PyErr String :=
  let k := (v.framePos - 1).toNat
  match v.alt with
  | none => Except.error (PyErr.typeError "can only concatenate str (not NoneType) to str")
  | some a => Except.ok (String.mk (mc.data.take k ++ [a] ++ mc.data.drop (k + 1)))

/-- enrich2.Enrich2.infer_silent_aa_substitution (lines 480-555). The
session's wild-type sequence and offset appear as parameters; self.codons is
the triplet slicing of the wild-type sequence, as established by the
wt_sequence setter in base.py. The isinstance(str) wrapping of the argument
is left to callers, which always pass a list here. -/
def infer_silent_aa_substitution (wt : String) (offset : Int) (codonVariants : List String)
    (row : String) : Except PyErr String :=
  bindE (mapME NucleotideSubstitutionEvent codonVariants) (fun evs0 =>
    let evs := sortByPos evs0
    let stringRep := pyJoin ", " (evs.map (fun v => v.variant))
    if distinctCount (evs.map NtSubEvent.codonPos) > 1 then
      Except.error (PyErr.valueError ("Codon group '" ++ stringRep ++
        "' contains variants from different codons."))
    else
      bindE (mapME (infer_check_event wt offset row) evs) (fun evs2 =>
        bindE (pyGetItem evs2 0) (fun v0 =>
          let aaPos := v0.codonPos
          bindE (pyGetItem (slicer3 wt) (aaPos - 1)) (fun wtCodon =>
          bindE (foldlME spliceStep wtCodon evs2) (fun mutCodon =>
          bindE (codonTableGet (pyUpper wtCodon)) (fun wa =>
          bindE (aaCodesGet wa) (fun wtAA =>
          bindE (codonTableGet (pyUpper mutCodon)) (fun ma =>
          bindE (aaCodesGet ma) (fun mutAA =>
          if wtAA ≠ mutAA then
            Except.error (PyErr.valueError
              ("Error inferring corrected synonymous syntax. Wild-type codon (" ++
               wtCodon ++ ", " ++ wtAA ++
               ") is not synonymous with the mutant codon (" ++ mutCodon ++ ", " ++
               mutAA ++ ") suggested by the codon group '" ++ stringRep ++ "'."))
          else Except.ok ("p." ++ wtAA ++ toString aaPos ++ "="))))))))))

/-! ## enrich2.Enrich2.parse_nucleotide_variant (lines 587-621) and
parse_protein_variant (lines 557-585) -/

/-- Modelled from the spec: a token matches the nucleotide single-variant
grammar exactly when the event constructor accepts it (only substitutions
are in scope; hgvsp.dna.single_variant_re is an external collaborator). -/
def dnaGrammarOk (v : String) : Bool :=
  match NucleotideSubstitutionEvent v with
  | Except.ok _ => true
  | Except.error _ => false

/-- Modelled from the spec: protein counterpart of the grammar test. -/
def proGrammarOk (v : String) : Bool :=
  match ProteinSubstitutionEvent v with
  | Except.ok _ => true
  | Except.error _ => false

/-- The message of the multiple-prefix-types ValueError (line 617). -/
def mixedPfxMsg (orig : String) : String :=
  "'" ++ orig ++ "' contains variants with multiple prefix types."

/-- Lines 611-614: the size of the set of first characters of the
non-sentinel tokens. -/
def pfxTypeCount (variants : List String) : Nat :=
  distinctCount ((variants.filter (fun v => decide (v ∉ special_variants))).map
    (fun v => String.mk (v.data.take 1)))

/-- Python repr of a list of strings, used when an error message formats the
list argument. -/
def pyListRepr (l : List String) : String :=
  "[" ++ pyJoin ", " (l.map (fun s => "'" ++ s ++ "'")) ++ "]"

/-- The shared tail of parse_nucleotide_variant (lines 598-621), applied to
the already tokenized list: sentinel pass-through on the first token, the
per-token grammar check, the first character of the first token, the
prefix-homogeneity check, and the re-serialization with the two-character
prefixes dropped. orig is the function's variant argument as it appears in
the mixed-prefix message. -/
def parse_nt_core (orig : String) (variants : List String) : Except PyErr String :=
  match variants with
  | [] => Except.error (PyErr.indexError "list index out of range")
  | v0 :: _ =>
    if v0 ∈ special_variants then Except.ok v0
    else
      bindE (forME (fun v =>
          if v ∈ special_variants then Except.ok ()
          else if dnaGrammarOk v then Except.ok ()
          else Except.error (PyErr.valueError ("'" ++ v ++
            "' contains invalid DNA/RNA HGVS syntax."))) variants) (fun _ =>
        match v0.data with
        | [] => Except.error (PyErr.indexError "string index out of range")
        | p :: _ =>
          if pfxTypeCount variants ≠ 1 then
            Except.error (PyErr.valueError (mixedPfxMsg orig))
          else
            Except.ok (hgvs_nt_from_event_list
              (variants.map (fun v => String.mk (v.data.drop 2))) p))

/-- The token list of parse_nucleotide_variant on a string argument (lines
595-596): format, split on commas, strip each token. -/
def nt_string_tokens (variant : String) : List String :=
  (pySplit ',' (format_variant variant)).map pyStrip

/-- parse_nucleotide_variant on a string argument. -/
def parse_nucleotide_variant (variant : String) : Except PyErr String :=
  parse_nt_core (format_variant variant) (nt_string_tokens variant)

/-- parse_nucleotide_variant on a list argument: format each element; the
mixed-prefix message then formats the list itself. -/
def parse_nucleotide_variant_list (variants : List String) : Except PyErr String :=
  parse_nt_core (pyListRepr variants) (variants.map format_variant)

/-- constants.surrounding_brackets_re.fullmatch: the token is wrapped in
parentheses. -/
def surroundingBracketsOk (v : String) : Bool := pyStartsWith "(" v && pyEndsWith ")" v

/-- The shared tail of parse_protein_variant (lines 568-585): strip
surrounding parentheses and re-format every token, sentinel pass-through on
the first token, the per-token grammar check, and the re-serialization with
the two-character prefixes dropped. -/
def parse_pro_core (variants0 : List String) : Except PyErr String :=
  let variants := variants0.map (fun v =>
    format_variant (if surroundingBracketsOk v then String.mk ((v.data.drop 1).dropLast) else v))
  match variants with
  | [] => Except.error (PyErr.indexError "list index out of range")
  | v0 :: _ =>
    if v0 ∈ special_variants then Except.ok v0
    else
      bindE (forME (fun v =>
          if v ∈ special_variants then Except.ok ()
          else if proGrammarOk v then Except.ok ()
          else Except.error (PyErr.valueError ("'" ++ v ++
            "' contains invalid protein HGVS syntax."))) variants) (fun _ =>
        Except.ok (hgvs_pro_from_event_list (variants.map (fun v => String.mk (v.data.drop 2)))))

/-- parse_protein_variant on a string argument. -/
def parse_protein_variant (variant : String) : Except PyErr String :=
  parse_pro_core ((pySplit ',' (format_variant variant)).map pyStrip)

/-- parse_protein_variant on a list argument. -/
def parse_protein_variant_list (variants : List String) : Except PyErr String :=
  parse_pro_core (variants.map format_variant)

/-! ## enrich2.Enrich2.parse_mixed_variant (lines 420-478) -/

/-- The two-way tuple unpacking of a split segment (line 433): ValueError
unless the split has exactly two parts. -/
def unpack2 (parts : List String) : Except PyErr (String × String) :=
  match parts with
  | [a, b] => Except.ok (a, b)
  | _ =>
    if parts.length < 2 then
      Except.error (PyErr.valueError ("not enough values to unpack (expected 2, got " ++
        toString parts.length ++ ")"))
    else Except.error (PyErr.valueError "too many values to unpack (expected 2)")

/-- The sort key of line 440: the codon position of the parsed nucleotide
half; parsing may raise. -/
def keyedPairs (pairs : List (String × String)) :
    Except PyErr (List (Int × (String × String))) :=
  mapME (fun p =>
    bindE (NucleotideSubstitutionEvent p.1) (fun ev => Except.ok (ev.codonPos, p))) pairs

/-- Stable insertion for the keyed sort. -/
def insertByKey (x : Int × (String × String)) :
    List (Int × (String × String)) → List (Int × (String × String))
  | [] => [x]
  | y :: ys => if y.1 < x.1 then y :: insertByKey x ys else x :: y :: ys

/-- Python sorted(..., key=codon position): a stable sort by key. -/
def sortByKey : List (Int × (String × String)) → List (Int × (String × String))
  | [] => []
  | x :: xs => insertByKey x (sortByKey xs)

/-- Leading run of pairs sharing the key k, and the remainder. -/
def spanKey (k : Int) : List (Int × (String × String)) →
    (List (String × String) × List (Int × (String × String)))
  | [] => ([], [])
  | y :: ys =>
    if y.1 = k then
      let g := spanKey k ys
      (y.2 :: g.1, g.2)
    else ([], y :: ys)

/-- Fueled grouping of a key-sorted list into runs of equal key. -/
def groupRunsAux : Nat → List (Int × (String × String)) → List (List (String × String))
  | 0, _ => []
  | _, [] => []
  | Nat.succ n, x :: rest =>
    let g := spanKey x.1 rest
    (x.2 :: g.1) :: groupRunsAux n g.2

/-- itertools.groupby over a key-sorted list: maximal runs of equal key. -/
def groupRuns (l : List (Int × (String × String))) : List (List (String × String)) :=
  groupRunsAux l.length l

/-- variant_index of line 446: the dictionary comprehension keeps the last
index of each nucleotide token. -/
def lastIndexOf (nt : String) (l : List (String × String)) : Option Nat :=
  match l.reverse.findIdx? (fun p => p.1 == nt) with
  | some j => some (l.length - 1 - j)
  | none => none

/-- One codon group of the parse_mixed_variant loop (lines 452-473): split
the group into the synonymous sub-group (protein half contains p.=) and the
rest; for each synonymous member run the silent inference over the whole
synonymous sub-group and store the pair at the member's original index; the
partial-synonymy warning is logging only; non-synonymous members are stored
as they are. -/
def processGroup (wt : String) (offset : Int) (variantStr : String)
    (mixed : List (String × String)) (acc : List (Option (String × String)))
    (group : List (String × String)) : Except PyErr (List (Option (String × String))) :=
  let syn := group.filter (fun p => pyIn "p.=" p.2)
  bindE (foldlME (fun a p =>
      bindE (infer_silent_aa_substitution wt offset (syn.map Prod.fst) variantStr)
        (fun inferred =>
          match lastIndexOf p.1 mixed with
          | some i => Except.ok (a.set i (some (p.1, inferred)))
          | none => Except.error (PyErr.keyError p.1))) acc syn) (fun acc2 =>
    foldlME (fun a p =>
      match lastIndexOf p.1 mixed with
      | some i => Except.ok (a.set i (some p))
      | none => Except.error (PyErr.keyError p.1))
      acc2 (group.filter (fun p => !(pyIn "p.=" p.2))))

/-- enrich2.Enrich2.parse_mixed_variant (lines 420-478): sentinel shortcut,
tokenization into (nt, pro) pairs, codon grouping, per-group silent
inference, and reassembly in original token order; an index never assigned
surfaces as the IndexError that t[0] raises on the empty tuple placeholder. -/
def parse_mixed_variant (wt : String) (offset : Int) (variant0 : String)
    (element : Option String) : Except PyErr (Option String × Option String) :=
  let variant := format_variant variant0
  if variant ∈ special_variants then
    if element = some synonymous_table then Except.ok (none, some variant)
    else Except.ok (some variant, some variant)
  else
    bindE (mapME (fun p => unpack2 (pySplit ' ' (pyStrip p))) (pySplit ',' variant))
      (fun mixedRaw =>
      let mixed := mixedRaw.map (fun p => (format_variant p.1, format_variant p.2))
      bindE (keyedPairs mixed) (fun keyed =>
        let groups := groupRuns (sortByKey keyed)
        let init : List (Option (String × String)) := mixed.map (fun _ => none)
        bindE (foldlME (processGroup wt offset variant mixed) init groups) (fun parsed =>
        bindE (mapME (fun o =>
            match o with
            | some p => Except.ok p
            | none => Except.error (PyErr.indexError "tuple index out of range")) parsed)
          (fun pairs =>
          bindE (parse_nucleotide_variant_list (pairs.map Prod.fst)) (fun ntv =>
          bindE (parse_protein_variant_list (pairs.map Prod.snd)) (fun prov =>
          Except.ok (some ntv, some prov)))))))

/-! ## enrich2.Enrich2.parse_row (lines 258-296) -/

/-- enrich2.Enrich2.parse_row: a row is a variant string with an optional
element tag. Sentinels are returned verbatim, as (None, sentinel) under the
synonymous table; otherwise the variant passes through
fix_silent_hgvs_syntax and apply_offset, is classified as mixed,
nucleotide-only or protein-only (the classification lists are built eagerly,
so an empty segment raises IndexError before the branch), and is delegated. -/
def parse_row (wt : String) (offset : Int) (variant0 : String) (element : Option String) :
    Except PyErr (Option String × Option String) :=
  let variant := format_variant variant0
  if variant ∈ special_variants then
    if element = some synonymous_table then Except.ok (none, some variant)
    else Except.ok (some variant, some variant)
  else
    bindE (fix_silent_hgvs variant) (fun v1 =>
    bindE (apply_offset v1 offset) (fun v2 =>
      let segs := pySplit ',' v2
      let isMixed := segs.any (fun v => (pySplit ' ' (pyStrip v)).length = 2)
      bindE (mapME (fun v =>
          match (pyStrip v).data with
          | [] => Except.error (PyErr.indexError "string index out of range")
          | c :: _ => Except.ok (decide (c ∈ dnaPfxChars))) segs) (fun ntFlags =>
      bindE (mapME (fun v =>
          match (pyStrip v).data with
          | [] => Except.error (PyErr.indexError "string index out of range")
          | c :: _ => Except.ok (decide (c = 'p'))) segs) (fun proFlags =>
      if isMixed then parse_mixed_variant wt offset v2 element
      else if ntFlags.all id then
        bindE (parse_nucleotide_variant v2) (fun r => Except.ok (some r, none))
      else if proFlags.all id then
        bindE (parse_protein_variant v2) (fun r => Except.ok (none, some r))
      else
        Except.error (PyErr.valueError ("Could not infer type of HGVS string from '" ++
          v2 ++ "'."))))))

/-! ## base.BaseProgram.validate_against_wt_sequence (lines 191-240) and
validate_against_protein_sequence (lines 242-288) -/

/-- The single-event path of validate_against_wt_sequence (lines 208-240):
sentinels and silent events pass, the zero-based index is position minus
one when one_based, a negative index and an index at or past the sequence
length raise IndexError, and a reference disagreeing with the wild-type
base raises ValueError. -/
def validate_wt_single (wt : String) (oneBased : Bool) (variant : String) :
    Except PyErr Unit :=
  if variant ∈ special_variants then Except.ok ()
  else
    bindE (NucleotideSubstitutionEvent variant) (fun ev =>
      if ev.silent then Except.ok ()
      else
        let zb : Int := ev.position - (if oneBased then 1 else 0)
        if zb < 0 then
          Except.error (PyErr.indexError ("Encountered a negative position in " ++ ev.variant ++
            " with 'one_based' set as '" ++ (if oneBased then "True" else "False") ++
            "'. Positions might not be one-based."))
        else if (pyLen wt : Int) ≤ zb then
          Except.error (PyErr.indexError ("Position " ++
            toString (zb + (if oneBased then 1 else 0)) ++ " (index " ++ toString zb ++
            ") in " ++ ev.variant ++ " with 'one_based' set as '" ++
            (if oneBased then "True" else "False") ++
            "' extends beyond the maximum index " ++ toString (pyLen wt - 1) ++
            " in the wild-type sequence with length " ++ toString (pyLen wt) ++ "."))
        else
          bindE (pyStrGet wt zb) (fun c =>
            if ev.ref ≠ some c then
              Except.error (PyErr.valueError ("Base '" ++ String.mk [c] ++
                "' at 1-based position " ++ toString (zb + 1) ++
                " in the wild-type sequence does not match the base '" ++
                (match ev.ref with | some r => String.mk [r] | none => "None") ++
                "' from the variant '" ++ ev.variant ++ "'."))
            else Except.ok ()))

/-- base.BaseProgram.validate_against_wt_sequence (lines 191-240). The source
recurses into each part of a multi-variant string; split_variant yields
single-event parts, for which the recursive call takes the single-event
path, embedded here directly. -/
def validate_against_wt_sequence (wt : String) (oneBased : Bool) (variant : String) :
    Except PyErr Unit :=
  if is_multi variant then forME (validate_wt_single wt oneBased) (split_variant variant)
  else validate_wt_single wt oneBased variant

/-- The single-event path of validate_against_protein_sequence
(lines 259-288): sentinels and variants containing the literal p.= pass,
then the indexing mirrors the nucleotide case against the translated
sequence, with the wild-type residue looked up through AA_CODES. -/
def validate_pro_single (proteinSequence : String) (oneBased : Bool) (variant : String) :
    Except PyErr Unit :=
  if variant ∈ special_variants ∨ pyIn "p.=" variant then Except.ok ()
  else
    bindE (ProteinSubstitutionEvent variant) (fun ev =>
      let zb : Int := ev.position - (if oneBased then 1 else 0)
      if zb < 0 then
        Except.error (PyErr.indexError ("Encountered a negative position in " ++ ev.variant ++
          " with one_based set as " ++ (if oneBased then "True" else "False") ++
          ". Positions might not be one-based."))
      else if (pyLen proteinSequence : Int) ≤ zb then
        Except.error (PyErr.indexError ("Position " ++
          toString (zb + (if oneBased then 1 else 0)) ++ " (index " ++ toString zb ++
          ") in " ++ ev.variant ++ " with 'one_based' set as '" ++
          (if oneBased then "True" else "False") ++
          "' extends beyond the maximum index " ++ toString (pyLen proteinSequence - 1) ++
          " in the translated wild-type sequence with length " ++
          toString (pyLen proteinSequence) ++ "."))
      else
        bindE (pyStrGet proteinSequence zb) (fun c =>
        bindE (aaCodesGet c) (fun wtAA =>
          if ev.ref ≠ wtAA then
            Except.error (PyErr.valueError ("Amino acid '" ++ wtAA ++
              "' at 1-based position " ++ toString (zb + 1) ++
              " in the translated protein sequence does not match the amino acid '" ++
              ev.ref ++ "' suggested in the variant '" ++ ev.variant ++ "'."))
          else Except.ok ())))

/-- base.BaseProgram.validate_against_protein_sequence (lines 242-288), with
the multi-variant recursion handled as for the nucleotide case. -/
def validate_against_protein_sequence (proteinSequence : String) (oneBased : Bool)
    (variant : String) : Except PyErr Unit :=
  if is_multi variant then
    forME (validate_pro_single proteinSequence oneBased) (split_variant variant)
  else validate_pro_single proteinSequence oneBased variant

/-! ## Shared lemmas -/

theorem forME_ok_of_all {α : Type} (f : α → Except PyErr Unit) (l : List α)
    (h : ∀ x ∈ l, f x = Except.ok ()) : forME f l = Except.ok () := by
  induction l with
  | nil => rfl
  | cons x xs ih =>
    rw [forME, h x (by simp), bindE_ok]
    exact ih (fun y hy => h y (by simp [hy]))

theorem mapME_ok_of_all {α β : Type} (f : α → Except PyErr β) (g : α → β) (l : List α)
    (h : ∀ x ∈ l, f x = Except.ok (g x)) : mapME f l = Except.ok (l.map g) := by
  induction l with
  | nil => rfl
  | cons x xs ih =>
    rw [mapME, h x (by simp), bindE_ok, ih (fun y hy => h y (by simp [hy])), bindE_ok,
      List.map_cons]

theorem foldlME_const {α β : Type} (f : β → α → Except PyErr β) (b : β) (l : List α)
    (h : ∀ x ∈ l, f b x = Except.ok b) : foldlME f b l = Except.ok b := by
  induction l with
  | nil => rfl
  | cons x xs ih =>
    rw [foldlME, h x (by simp), bindE_ok]
    exact ih (fun y hy => h y (by simp [hy]))

theorem distinctCount_le_one {α : Type} [DecidableEq α] (l : List α) (k : α)
    (h : ∀ x ∈ l, x = k) : distinctCount l ≤ 1 := by
  induction l with
  | nil => simp [distinctCount]
  | cons x xs ih =>
    have hx : x = k := h x (by simp)
    by_cases hmem : x ∈ xs
    · have := ih (fun y hy => h y (by simp [hy]))
      simp only [distinctCount, if_pos hmem]
      omega
    · have hxs : xs = [] := by
        cases xs with
        | nil => rfl
        | cons y ys =>
          exact absurd (by rw [hx, ← h y (by simp)]; exact List.mem_cons_self y ys) hmem
      subst hxs
      simp [distinctCount]

theorem mem_insertByPos {v a : NtSubEvent} {l : List NtSubEvent} :
    a ∈ insertByPos v l ↔ a = v ∨ a ∈ l := by
  induction l with
  | nil => simp [insertByPos]
  | cons w ws ih =>
    simp only [insertByPos]
    split
    · rw [List.mem_cons, ih, List.mem_cons]
      tauto
    · rw [List.mem_cons, List.mem_cons]

theorem mem_sortByPos {a : NtSubEvent} {l : List NtSubEvent} :
    a ∈ sortByPos l ↔ a ∈ l := by
  induction l with
  | nil => simp [sortByPos]
  | cons v vs ih => simp [sortByPos, mem_insertByPos, ih]

theorem insertByPos_ne_nil (v : NtSubEvent) (l : List NtSubEvent) : insertByPos v l ≠ [] := by
  cases l with
  | nil => simp [insertByPos]
  | cons w ws =>
    simp only [insertByPos]
    split <;> simp

theorem sortByPos_ne_nil {l : List NtSubEvent} (h : l ≠ []) : sortByPos l ≠ [] := by
  cases l with
  | nil => exact absurd rfl h
  | cons v vs => exact insertByPos_ne_nil v (sortByPos vs)

theorem special_trim_fixed : ∀ v ∈ special_variants, format_variant v = v := by decide

theorem adjusted_eq_sign (o : Int) :
    adjustedOffset o = Int.sign o * ((o.natAbs / 3 : Nat) : Int) := by
  rcases lt_trichotomy o 0 with h | rfl | h
  · rw [adjustedOffset, if_pos h, Int.sign_eq_neg_one_of_neg h]
  · decide
  · rw [adjustedOffset, if_neg (by omega), Int.sign_eq_one_of_pos h]

/-! ## Claim C6 -/

/-- C6: for a sentinel token, parse_row returns (None, sentinel) when the
element tag is the synonymous table and (sentinel, sentinel) for any other
element tag, including no tag, without reaching the parsing pipeline. -/
theorem c6_parse_row_sentinel (wt : String) (offset : Int) (v : String) (el : Option String)
    (h : v ∈ special_variants) :
    (el = some synonymous_table → parse_row wt offset v el = Except.ok (none, some v))
    ∧ (el ≠ some synonymous_table → parse_row wt offset v el = Except.ok (some v, some v)) := by
  have hv : format_variant v = v := special_trim_fixed v h
  constructor
  · intro he
    simp [parse_row, hv, h, he]
  · intro he
    simp [parse_row, hv, h, he]

/-- Witness for C6: the wild-type sentinel under the synonymous-table
context and under no context. -/
theorem c6_parse_row_sentinel_witness :
    parse_row "ATG" 0 "_wt" (some synonymous_table) = Except.ok (none, some "_wt")
    ∧ parse_row "ATG" 0 "_wt" none = Except.ok (some "_wt", some "_wt") :=
  ⟨(c6_parse_row_sentinel "ATG" 0 "_wt" (some synonymous_table) (by decide)).1 rfl,
   (c6_parse_row_sentinel "ATG" 0 "_wt" none (by decide)).2 (by decide)⟩

/-! ## Claim C7 -/

/-- C7: fix_silent_hgvs_syntax is not a pass-through. A segment whose
stripped space-split has exactly two parts is dropped (the two-token input
comes back empty), and a segment with any other number of parts raises
ValueError at the unconditional tuple unpacking. -/
theorem c7_fix_silent_not_noop :
    fix_silent_hgvs "c.4A>G p.=" = Except.ok ""
    ∧ fix_silent_hgvs "c.4A>G p.=" ≠ Except.ok "c.4A>G p.="
    ∧ fix_silent_hgvs "c.4A>G" =
        Except.error (PyErr.valueError "not enough values to unpack (expected 2, got 1)") := by
  decide

/-! ## Claim C8 -/

/-- C8: the nucleotide half of apply_offset subtracts the offset from the
event position, raises the negative-position ValueError exactly when the
result is below 1, and otherwise re-serializes the event with the adjusted
position. -/
theorem c8_apply_offset_nt (o : Int) (tok : String) (e : NtSubEvent)
    (hp : NucleotideSubstitutionEvent tok = Except.ok e) :
    (e.position - o < 1 →
      apply_offset_nt o tok = Except.error (PyErr.valueError
        ("Position after offset " ++ toString o ++ " applied to " ++ e.variant ++
         " is negative.")))
    ∧ (1 ≤ e.position - o →
      apply_offset_nt o tok =
        Except.ok ({ e with position := e.position - o } : NtSubEvent).format) := by
  constructor
  · intro h
    rw [apply_offset_nt, hp, bindE_ok]
    simp only []
    rw [if_pos h]
  · intro h
    rw [apply_offset_nt, hp, bindE_ok]
    simp only []
    rw [if_neg (by omega)]

/-- Witness for C8: offset 10 pushes c.5A>G negative, offset 2 re-serializes
it as c.3A>G, and the full apply_offset agrees on the bare token. -/
theorem c8_apply_offset_nt_witness :
    apply_offset_nt 10 "c.5A>G" = Except.error (PyErr.valueError
      "Position after offset 10 applied to c.5A>G is negative.")
    ∧ apply_offset_nt 2 "c.5A>G" = Except.ok "c.3A>G"
    ∧ apply_offset "c.5A>G" 2 = Except.ok "c.3A>G" := by
  refine ⟨?_, ?_, by decide⟩
  · rw [(c8_apply_offset_nt 10 "c.5A>G" ⟨'c', 5, some 'A', some 'G', "c.5A>G"⟩
      (by decide)).1 (by decide)]
    decide
  · rw [(c8_apply_offset_nt 2 "c.5A>G" ⟨'c', 5, some 'A', some 'G', "c.5A>G"⟩
      (by decide)).2 (by decide)]
    decide

/-! ## Claim C2 -/

/-- C2: the protein half of apply_offset subtracts the codon-scaled offset
sign(o) * (abs(o) // 3) from the protein position, fails whenever the
resulting position is below 1, and otherwise re-serializes with the adjusted
position, reattaching surrounding parentheses. -/
theorem c2_apply_offset_pro (o : Int) (nt : Option String) (tok : String) (e : ProSubEvent)
    (hp : ProteinSubstitutionEvent
      (if pyStartsWith "(" tok && pyEndsWith ")" tok then
        String.mk ((tok.data.drop 1).dropLast) else tok) = Except.ok e) :
    adjustedOffset o = Int.sign o * ((o.natAbs / 3 : Nat) : Int)
    ∧ (e.position - adjustedOffset o < 1 → ∃ err, apply_offset_pro o nt tok = Except.error err)
    ∧ (1 ≤ e.position - adjustedOffset o →
        apply_offset_pro o nt tok = Except.ok
          (if pyStartsWith "(" tok && pyEndsWith ")" tok then
            "(" ++ ({ e with position := e.position - adjustedOffset o } : ProSubEvent).format ++ ")"
          else ({ e with position := e.position - adjustedOffset o } : ProSubEvent).format)) := by
  refine ⟨adjusted_eq_sign o, ?_, ?_⟩
  · intro h
    rw [apply_offset_pro, hp, bindE_ok]
    simp only []
    rw [if_pos h]
    cases nt with
    | none => exact ⟨_, rfl⟩
    | some s => exact ⟨_, rfl⟩
  · intro h
    rw [apply_offset_pro, hp, bindE_ok]
    simp only []
    rw [if_neg (by omega)]

/-- Witness for C2: offset -6 applied to p.Lys10Arg gives adjusted offset
-2 and the new position 12, through the full apply_offset as well. -/
theorem c2_apply_offset_pro_witness :
    apply_offset "p.Lys10Arg" (-6) = Except.ok "p.Lys12Arg"
    ∧ adjustedOffset (-6) = -2
    ∧ apply_offset_pro (-6) none "p.Lys10Arg" = Except.ok "p.Lys12Arg" := by
  refine ⟨by decide, by decide, ?_⟩
  rw [(c2_apply_offset_pro (-6) none "p.Lys10Arg" ⟨10, "Lys", some "Arg", "p.Lys10Arg"⟩
    (by decide)).2.2 (by decide)]
  decide

/-! ## Claim C10 -/

/-- C10: whenever the protein position after the adjusted offset drops below
1, the error branch of apply_offset reads the variant attribute of the
nucleotide local, which at that point is None or a plain string; the branch
therefore always produces an AttributeError and never the negative-position
ValueError its message describes. -/
theorem c10_apply_offset_pro_attr (o : Int) (nt : Option String) (tok : String) (e : ProSubEvent)
    (hp : ProteinSubstitutionEvent
      (if pyStartsWith "(" tok && pyEndsWith ")" tok then
        String.mk ((tok.data.drop 1).dropLast) else tok) = Except.ok e)
    (hneg : e.position - adjustedOffset o < 1) :
    apply_offset_pro o nt tok = Except.error (PyErr.attributeError
      (match nt with
       | none => "NoneType object has no attribute variant"
       | some _ => "str object has no attribute variant"))
    ∧ ∀ m, apply_offset_pro o nt tok ≠ Except.error (PyErr.valueError m) := by
  have hmain : apply_offset_pro o nt tok = Except.error (PyErr.attributeError
      (match nt with
       | none => "NoneType object has no attribute variant"
       | some _ => "str object has no attribute variant")) := by
    rw [apply_offset_pro, hp, bindE_ok]
    simp only []
    rw [if_pos hneg]
    cases nt <;> rfl
  refine ⟨hmain, ?_⟩
  intro m hcontra
  rw [hmain] at hcontra
  cases nt <;> simp_all

/-- Witness for C10: a bare protein token pushed below position 1 yields the
AttributeError, also through the full apply_offset. -/
theorem c10_apply_offset_pro_attr_witness :
    apply_offset_pro 6 none "p.Lys1Arg" =
      Except.error (PyErr.attributeError "NoneType object has no attribute variant")
    ∧ apply_offset "p.Lys1Arg" 6 =
      Except.error (PyErr.attributeError "NoneType object has no attribute variant") := by
  refine ⟨?_, by decide⟩
  exact (c10_apply_offset_pro_attr 6 none "p.Lys1Arg" ⟨1, "Lys", some "Arg", "p.Lys1Arg"⟩
    (by decide) (by decide)).1

/-! ## Claim C9 -/

/-- C9: both validators return without raising for sentinels, for silent
nucleotide substitution events, and for protein variants containing the
literal p.= marker; no reference comparison happens in those cases. -/
theorem c9_validations_skip (wt ps : String) (ob : Bool) (v : String) :
    (v ∈ special_variants → validate_against_wt_sequence wt ob v = Except.ok ())
    ∧ (∀ e, is_multi v = false → NucleotideSubstitutionEvent v = Except.ok e →
        e.silent = true → validate_against_wt_sequence wt ob v = Except.ok ())
    ∧ (is_multi v = false → v ∈ special_variants ∨ pyIn "p.=" v = true →
        validate_against_protein_sequence ps ob v = Except.ok ()) := by
  refine ⟨?_, ?_, ?_⟩
  · intro h
    rcases (by simpa [special_variants] using h : v = "_wt" ∨ v = "_sy") with rfl | rfl
    · have h1 : is_multi "_wt" = false := by decide
      have h2 : ("_wt" : String) ∈ special_variants := by decide
      simp [validate_against_wt_sequence, h1, validate_wt_single, h2]
    · have h1 : is_multi "_sy" = false := by decide
      have h2 : ("_sy" : String) ∈ special_variants := by decide
      simp [validate_against_wt_sequence, h1, validate_wt_single, h2]
  · intro e hm hp hsil
    by_cases hv : v ∈ special_variants
    · simp [validate_against_wt_sequence, hm, validate_wt_single, hv]
    · simp [validate_against_wt_sequence, hm, validate_wt_single, hv, hp, hsil]
  · intro hm h
    have h2 : (v ∈ special_variants ∨ pyIn "p.=" v) := by
      rcases h with h | h
      · exact Or.inl h
      · exact Or.inr h
    simp [validate_against_protein_sequence, hm, validate_pro_single, h2]

/-- Witness for C9: the sentinel, a silent nucleotide event, and the bare
p.= protein marker all validate as no-ops. -/
theorem c9_validations_skip_witness :
    validate_against_wt_sequence "ATG" true "_wt" = Except.ok ()
    ∧ validate_against_wt_sequence "ATG" true "c.2=" = Except.ok ()
    ∧ validate_against_protein_sequence "M" true "p.=" = Except.ok () :=
  ⟨(c9_validations_skip "ATG" "M" true "_wt").1 (by decide),
   (c9_validations_skip "ATG" "M" true "c.2=").2.1 ⟨'c', 2, none, none, "c.2="⟩
     (by decide) (by decide) (by decide),
   (c9_validations_skip "ATG" "M" true "p.=").2.2 (by decide) (Or.inr (by decide))⟩

/-! ## Claim C3 -/

/-- C3: for a non-sentinel, non-silent single nucleotide substitution,
validate_against_wt_sequence takes the zero-based index position minus one
when one_based (minus zero otherwise), raises IndexError exactly when that
index is negative or at least the sequence length, and otherwise raises the
reference-mismatch ValueError exactly when the claimed reference differs
from the wild-type base at that index. -/
theorem c3_validate_wt (wt : String) (ob : Bool) (s : String) (e : NtSubEvent)
    (hm : is_multi s = false) (hs : s ∉ special_variants)
    (hp : NucleotideSubstitutionEvent s = Except.ok e) (hsil : e.silent = false) :
    ((e.position - (if ob then 1 else 0) < 0 ∨
        (pyLen wt : Int) ≤ e.position - (if ob then 1 else 0)) →
      ∃ m, validate_against_wt_sequence wt ob s = Except.error (PyErr.indexError m))
    ∧ (∀ c, 0 ≤ e.position - (if ob then 1 else 0) →
        e.position - (if ob then 1 else 0) < (pyLen wt : Int) →
        wt.data[(e.position - (if ob then 1 else 0)).toNat]? = some c →
        ((e.ref = some c → validate_against_wt_sequence wt ob s = Except.ok ())
         ∧ (e.ref ≠ some c →
            ∃ m, validate_against_wt_sequence wt ob s = Except.error (PyErr.valueError m)))) := by
  have hbase : validate_against_wt_sequence wt ob s = validate_wt_single wt ob s := by
    rw [validate_against_wt_sequence, hm]
    simp
  constructor
  · intro hout
    rw [hbase, validate_wt_single, if_neg hs, hp, bindE_ok, if_neg (by simp [hsil])]
    simp only []
    rcases hout with hneg | hbig
    · rw [if_pos hneg]
      exact ⟨_, rfl⟩
    · rw [if_neg (by omega), if_pos hbig]
      exact ⟨_, rfl⟩
  · intro c h0 hlen hc
    have hin : validate_against_wt_sequence wt ob s =
        (if e.ref ≠ some c then
          Except.error (PyErr.valueError ("Base '" ++ String.mk [c] ++
            "' at 1-based position " ++ toString (e.position - (if ob then 1 else 0) + 1) ++
            " in the wild-type sequence does not match the base '" ++
            (match e.ref with | some r => String.mk [r] | none => "None") ++
            "' from the variant '" ++ e.variant ++ "'."))
        else Except.ok ()) := by
      rw [hbase, validate_wt_single, if_neg hs, hp, bindE_ok, if_neg (by simp [hsil])]
      simp only []
      rw [if_neg (by omega), if_neg (by omega)]
      have hj : pyStrGet wt (e.position - (if ob then 1 else 0)) = Except.ok c := by
        rw [pyStrGet]
        simp only [if_neg (by omega : ¬ (e.position - (if ob then 1 else 0) < 0))]
        rw [hc]
      rw [hj, bindE_ok]
    constructor
    · intro heq
      rw [hin, if_neg (by simp [heq])]
    · intro hne
      rw [hin, if_pos hne]
      exact ⟨_, rfl⟩

/-- Witness for C3: the out-of-bounds scenario c.1000A>G against a 30-base
sequence, a matching reference, and a mismatching reference. -/
theorem c3_validate_wt_witness :
    (∃ m, validate_against_wt_sequence "ATGATGATGATGATGATGATGATGATGATG" true "c.1000A>G" =
      Except.error (PyErr.indexError m))
    ∧ validate_against_wt_sequence "ATGATGATGATGATGATGATGATGATGATG" true "c.2T>A" = Except.ok ()
    ∧ (∃ m, validate_against_wt_sequence "ATGATGATGATGATGATGATGATGATGATG" true "c.2A>G" =
      Except.error (PyErr.valueError m)) := by
  refine ⟨?_, ?_, ?_⟩
  · exact (c3_validate_wt "ATGATGATGATGATGATGATGATGATGATG" true "c.1000A>G"
      ⟨'c', 1000, some 'A', some 'G', "c.1000A>G"⟩
      (by decide) (by decide) (by decide) (by decide)).1 (Or.inr (by decide))
  · exact ((c3_validate_wt "ATGATGATGATGATGATGATGATGATGATG" true "c.2T>A"
      ⟨'c', 2, some 'T', some 'A', "c.2T>A"⟩
      (by decide) (by decide) (by decide) (by decide)).2 'T'
      (by decide) (by decide) (by decide)).1 (by decide)
  · exact ((c3_validate_wt "ATGATGATGATGATGATGATGATGATGATG" true "c.2A>G"
      ⟨'c', 2, some 'A', some 'G', "c.2A>G"⟩
      (by decide) (by decide) (by decide) (by decide)).2 'T'
      (by decide) (by decide) (by decide)).2 (by decide)

/-! ## Claim C4 -/

theorem parser_nil {t : String} (hnil : t.data = []) :
    NucleotideSubstitutionEvent t = Except.error (malformedVariantErr t) := by
  unfold NucleotideSubstitutionEvent
  rw [hnil]

theorem dnaGrammarOk_ne_nil {t : String} (h : dnaGrammarOk t = true) : t.data ≠ [] := by
  intro hnil
  rw [dnaGrammarOk, parser_nil hnil] at h
  exact Bool.noConfusion h

/-- C4 counterexample: a multi-variant string whose first token is a
sentinel is passed through as that sentinel even though its non-sentinel
tokens carry two distinct prefix characters, so the mixed-prefix error is
not raised. -/
theorem c4_counterexample_sentinel_head :
    2 ≤ pfxTypeCount (nt_string_tokens "_wt, c.1A>G, g.2T>C")
    ∧ parse_nucleotide_variant "_wt, c.1A>G, g.2T>C" = Except.ok "_wt" := by
  decide

/-- C4 (amended): for a nucleotide multi-variant string each of whose
tokens is a sentinel or matches the single-variant nucleotide substitution
grammar, homogeneous prefixes never produce the mixed-prefix error; and
when additionally the first token is not a sentinel, two or more distinct
prefix characters among the non-sentinel tokens always produce it. -/
theorem c4_amended_prefix_rule (s : String)
    (hval : ∀ t ∈ nt_string_tokens s, t ∈ special_variants ∨ dnaGrammarOk t = true) :
    (pfxTypeCount (nt_string_tokens s) = 1 →
      ∀ m, parse_nucleotide_variant s ≠ Except.error (PyErr.valueError (mixedPfxMsg m)))
    ∧ (∀ t0 rest, nt_string_tokens s = t0 :: rest → t0 ∉ special_variants →
        2 ≤ pfxTypeCount (nt_string_tokens s) →
        parse_nucleotide_variant s =
          Except.error (PyErr.valueError (mixedPfxMsg (format_variant s)))) := by
  have hloop : ∀ (l : List String), (∀ t ∈ l, t ∈ special_variants ∨ dnaGrammarOk t = true) →
      forME (fun v =>
        if v ∈ special_variants then Except.ok ()
        else if dnaGrammarOk v then Except.ok ()
        else Except.error (PyErr.valueError ("'" ++ v ++
          "' contains invalid DNA/RNA HGVS syntax."))) l = Except.ok () := by
    intro l hl
    apply forME_ok_of_all
    intro t ht
    rcases hl t ht with h | h
    · rw [if_pos h]
    · by_cases hs2 : t ∈ special_variants
      · rw [if_pos hs2]
      · rw [if_neg hs2, if_pos h]
  constructor
  · intro hone m
    rw [parse_nucleotide_variant]
    cases htoks : nt_string_tokens s with
    | nil => simp [parse_nt_core]
    | cons t0 rest =>
      rw [htoks] at hval hone
      by_cases h0 : t0 ∈ special_variants
      · simp [parse_nt_core, h0]
      · simp only [parse_nt_core, if_neg h0, hloop _ hval, bindE_ok]
        have hg : dnaGrammarOk t0 = true := by
          rcases hval t0 (by simp) with h | h
          · exact absurd h h0
          · exact h
        cases ht0 : t0.data with
        | nil => exact absurd ht0 (dnaGrammarOk_ne_nil hg)
        | cons p tl =>
          simp [hone]
  · intro t0 rest htoks h0 htwo
    rw [parse_nucleotide_variant, htoks]
    rw [htoks] at hval htwo
    have hg : dnaGrammarOk t0 = true := by
      rcases hval t0 (by simp) with h | h
      · exact absurd h h0
      · exact h
    cases ht0 : t0.data with
    | nil => exact absurd ht0 (dnaGrammarOk_ne_nil hg)
    | cons p tl =>
      have hne1 : pfxTypeCount (t0 :: rest) ≠ 1 := by omega
      simp only [parse_nt_core, if_neg h0, hloop _ hval, bindE_ok]
      simp [hne1, ht0]

/-- Witness for C4 (amended): a homogeneous two-token string parses without
the mixed-prefix error, and a two-prefix string with a non-sentinel first
token raises it. -/
theorem c4_amended_prefix_rule_witness :
    (∀ m, parse_nucleotide_variant "c.1A>G, c.2T>C" ≠
      Except.error (PyErr.valueError (mixedPfxMsg m)))
    ∧ parse_nucleotide_variant "c.1A>G, g.2T>C" =
      Except.error (PyErr.valueError (mixedPfxMsg (format_variant "c.1A>G, g.2T>C"))) :=
  ⟨(c4_amended_prefix_rule "c.1A>G, c.2T>C" (by decide)).1 (by decide),
   (c4_amended_prefix_rule "c.1A>G, g.2T>C" (by decide)).2 "c.1A>G" ["g.2T>C"]
     (by decide) (by decide) (by decide)⟩

/-! ## Claim C5 -/

theorem pyGetItem_zero {α : Type} (x : α) (xs : List α) : pyGetItem (x :: xs) 0 = Except.ok x := by
  simp [pyGetItem]

/-- C5: when the per-event checks pass and splicing each alternate base into
the wild-type codon yields a mutant codon whose translation differs from the
wild-type codon's translation, infer_silent_aa_substitution raises the
synonymy-violation ValueError. -/
theorem c5_infer_synonymy (wt : String) (offset : Int) (row : String)
    (vs : List String) (evs : List NtSubEvent) (w0 : NtSubEvent) (ws : List NtSubEvent)
    (wtCodon mutCodon : String) (wa ma : Char) (wtAA mutAA : String)
    (hp : mapME NucleotideSubstitutionEvent vs = Except.ok evs)
    (hcp : ∀ v ∈ evs, v.codonPos = w0.codonPos)
    (hchk : mapME (infer_check_event wt offset row) (sortByPos evs) = Except.ok (w0 :: ws))
    (hwt : pyGetItem (slicer3 wt) (w0.codonPos - 1) = Except.ok wtCodon)
    (hsp : foldlME spliceStep wtCodon (w0 :: ws) = Except.ok mutCodon)
    (hct1 : codonTableGet (pyUpper wtCodon) = Except.ok wa)
    (ha1 : aaCodesGet wa = Except.ok wtAA)
    (hct2 : codonTableGet (pyUpper mutCodon) = Except.ok ma)
    (ha2 : aaCodesGet ma = Except.ok mutAA)
    (hne : wtAA ≠ mutAA) :
    infer_silent_aa_substitution wt offset vs row = Except.error (PyErr.valueError
      ("Error inferring corrected synonymous syntax. Wild-type codon (" ++ wtCodon ++ ", " ++
       wtAA ++ ") is not synonymous with the mutant codon (" ++ mutCodon ++ ", " ++ mutAA ++
       ") suggested by the codon group '" ++
       pyJoin ", " ((sortByPos evs).map (fun v => v.variant)) ++ "'.")) := by
  have hdc : ¬ (distinctCount ((sortByPos evs).map NtSubEvent.codonPos) > 1) := by
    have hle := distinctCount_le_one ((sortByPos evs).map NtSubEvent.codonPos) w0.codonPos
      (by
        intro x hx
        rcases List.mem_map.mp hx with ⟨v, hv, rfl⟩
        exact hcp v (mem_sortByPos.mp hv))
    omega
  rw [infer_silent_aa_substitution, hp]
  simp only [bindE_ok]
  rw [if_neg hdc, hchk]
  simp only [bindE_ok]
  rw [pyGetItem_zero]
  simp only [bindE_ok]
  rw [hwt]
  simp only [bindE_ok]
  rw [hsp]
  simp only [bindE_ok]
  rw [hct1]
  simp only [bindE_ok]
  rw [ha1]
  simp only [bindE_ok]
  rw [hct2]
  simp only [bindE_ok]
  rw [ha2]
  simp only [bindE_ok]
  rw [if_pos hne]

/-- Witness for C5: the token pair c.4A>G with protein half p.= against the
wild-type sequence ATGAAACTG is claimed silent although G differs from A;
the reconstructed mutant codon GAA translates to Glu while the wild-type
codon AAA translates to Lys, and the synonymy-violation error is raised. -/
theorem c5_infer_synonymy_witness :
    infer_silent_aa_substitution "ATGAAACTG" 0 ["c.4A>G"] "c.4A>G p.=" =
      Except.error (PyErr.valueError
        ("Error inferring corrected synonymous syntax. Wild-type codon (" ++ "AAA" ++ ", " ++
         "Lys" ++ ") is not synonymous with the mutant codon (" ++ "GAA" ++ ", " ++ "Glu" ++
         ") suggested by the codon group '" ++
         pyJoin ", "
           ((sortByPos [⟨'c', 4, some 'A', some 'G', "c.4A>G"⟩]).map (fun v => v.variant)) ++
         "'.")) :=
  c5_infer_synonymy "ATGAAACTG" 0 "c.4A>G p.=" ["c.4A>G"]
    [⟨'c', 4, some 'A', some 'G', "c.4A>G"⟩] ⟨'c', 4, some 'A', some 'G', "c.4A>G"⟩ []
    "AAA" "GAA" 'K' 'E' "Lys" "Glu"
    (by decide) (by decide) (by decide) (by decide) (by decide) (by decide) (by decide)
    (by decide) (by decide) (by decide)

/-! ## Claim C1 -/

theorem pyStrGet_of_getElem {s : String} {i : Int} {c : Char} (h0 : 0 ≤ i)
    (h : s.data[i.toNat]? = some c) : pyStrGet s i = Except.ok c := by
  rw [pyStrGet]
  simp only [if_neg (by omega : ¬ i < 0), h]

theorem pyGetItem_of_getElem {α : Type} {l : List α} {i : Int} {x : α} (h0 : 0 ≤ i)
    (h : l[i.toNat]? = some x) : pyGetItem l i = Except.ok x := by
  rw [pyGetItem]
  simp only [if_neg (by omega : ¬ i < 0), h]

theorem chunks3_getElem : ∀ (l : List Char) (q : Nat) (cs : List Char),
    (chunks3 l)[q]? = some cs → ∀ r : Nat, r < 3 → cs[r]? = l[3 * q + r]?
  | [], q, cs, h => by simp [chunks3] at h
  | [a], q, cs, h => by
    cases q with
    | zero =>
      simp [chunks3] at h
      subst h
      intro r hr
      interval_cases r <;> simp
    | succ n => simp [chunks3] at h
  | [a, b], q, cs, h => by
    cases q with
    | zero =>
      simp [chunks3] at h
      subst h
      intro r hr
      interval_cases r <;> simp
    | succ n => simp [chunks3] at h
  | a :: b :: c :: rest, q, cs, h => by
    cases q with
    | zero =>
      simp [chunks3] at h
      subst h
      intro r hr
      interval_cases r <;> simp
    | succ n =>
      intro r hr
      have hrec : (chunks3 rest)[n]? = some cs := by
        simpa [chunks3] using h
      have ih := chunks3_getElem rest n cs hrec r hr
      rw [ih]
      have harith : 3 * (n + 1) + r = 3 * n + r + 1 + 1 + 1 := by ring
      rw [harith]
      simp [List.getElem?_cons_succ]

theorem take_cons_drop {α : Type} : ∀ {l : List α} {k : Nat} {a : α},
    l[k]? = some a → l.take k ++ a :: l.drop (k + 1) = l := by
  intro l
  induction l with
  | nil => intro k a h; simp at h
  | cons x xs ih =>
    intro k a h
    cases k with
    | zero =>
      simp at h
      subst h
      simp
    | succ n =>
      simp only [List.getElem?_cons_succ] at h
      simp only [List.take_succ_cons, List.drop_succ_cons, List.cons_append]
      rw [ih h]

theorem splice_eq_self {mc : String} {k : Nat} {a : Char} (hk : mc.data[k]? = some a) :
    String.mk (mc.data.take k ++ [a] ++ mc.data.drop (k + 1)) = mc := by
  have h1 : mc.data.take k ++ [a] ++ mc.data.drop (k + 1)
      = mc.data.take k ++ a :: mc.data.drop (k + 1) := by
    rw [List.append_assoc]
    rfl
  rw [h1, take_cons_drop hk]

/-- The event an all-silent check pass produces: ref and alt forced to the
wild-type base (a proof-side description of the loop's mutation). -/
def forceWt (wt : String) (v : NtSubEvent) : NtSubEvent :=
  match wt.data[(v.position - 1).toNat]? with
  | some c => { v with ref := some c, alt := some c }
  | none => v

theorem forceWt_position (wt : String) (v : NtSubEvent) :
    (forceWt wt v).position = v.position := by
  rw [forceWt]
  split <;> rfl

theorem forceWt_codonPos (wt : String) (v : NtSubEvent) :
    (forceWt wt v).codonPos = v.codonPos := by
  simp [NtSubEvent.codonPos, forceWt_position]

theorem forceWt_framePos (wt : String) (v : NtSubEvent) :
    (forceWt wt v).framePos = v.framePos := by
  simp [NtSubEvent.framePos, forceWt_position]

/-- C1: for a codon group of events that all carry the silent flag, within
bounds and all in one codon, infer_silent_aa_substitution forces every
event's ref and alt to the wild-type base at its position, and returns
p.AA pos = built from the translation of the wild-type codon at the group's
codon position (the spliced mutant codon coincides with the wild-type
codon, so the mutant's translation is never used). -/
theorem c1_infer_silent_group (wt : String) (offset : Int) (row : String)
    (vs : List String) (evs : List NtSubEvent) (cp : Int) (wtCodon : String)
    (wa : Char) (aa3 : String)
    (hp : mapME NucleotideSubstitutionEvent vs = Except.ok evs)
    (hne : evs ≠ [])
    (hsil : ∀ v ∈ evs, v.silent = true)
    (hpos : ∀ v ∈ evs, 1 ≤ v.position ∧ v.position ≤ (pyLen wt : Int))
    (hcp : ∀ v ∈ evs, v.codonPos = cp)
    (hcodon : (slicer3 wt)[(cp - 1).toNat]? = some wtCodon)
    (hct : CODON_TABLE (pyUpper wtCodon) = some wa)
    (haa : AA_CODES wa = some aa3) :
    (∀ v ∈ sortByPos evs, ∃ c, pyStrGet wt (v.position - 1) = Except.ok c ∧
       infer_check_event wt offset row v = Except.ok { v with ref := some c, alt := some c })
    ∧ infer_silent_aa_substitution wt offset vs row =
        Except.ok ("p." ++ aa3 ++ toString cp ++ "=") := by
  have hlen : pyLen wt = wt.data.length := rfl
  have hforce : ∀ v ∈ evs, ∃ c, wt.data[(v.position - 1).toNat]? = some c ∧
      pyStrGet wt (v.position - 1) = Except.ok c ∧
      infer_check_event wt offset row v =
        Except.ok { v with ref := some c, alt := some c } ∧
      forceWt wt v = { v with ref := some c, alt := some c } := by
    intro v hv
    obtain ⟨h1, h2⟩ := hpos v hv
    have hlt : (v.position - 1).toNat < wt.data.length := by omega
    obtain ⟨c, hc⟩ : ∃ c, wt.data[(v.position - 1).toNat]? = some c :=
      ⟨_, List.getElem?_eq_getElem hlt⟩
    refine ⟨c, hc, pyStrGet_of_getElem (by omega) hc, ?_, ?_⟩
    · rw [infer_check_event, if_neg (by omega : ¬ v.position > (pyLen wt : Int)),
        if_pos (hsil v hv), pyStrGet_of_getElem (by omega) hc, bindE_ok]
    · rw [forceWt, hc]
  have hpart1 : ∀ v ∈ sortByPos evs, ∃ c, pyStrGet wt (v.position - 1) = Except.ok c ∧
      infer_check_event wt offset row v =
        Except.ok { v with ref := some c, alt := some c } := by
    intro v hv
    obtain ⟨c, _, hg, hchk, _⟩ := hforce v (mem_sortByPos.mp hv)
    exact ⟨c, hg, hchk⟩
  refine ⟨hpart1, ?_⟩
  have hcp1 : 1 ≤ cp := by
    cases evs with
    | nil => exact absurd rfl hne
    | cons a l =>
      have := (hpos a (by simp)).1
      have hacp := hcp a (by simp)
      rw [NtSubEvent.codonPos] at hacp
      omega
  have hmapchk : mapME (infer_check_event wt offset row) (sortByPos evs) =
      Except.ok ((sortByPos evs).map (forceWt wt)) := by
    apply mapME_ok_of_all
    intro v hv
    obtain ⟨c, _, _, hchk, hfw⟩ := hforce v (mem_sortByPos.mp hv)
    rw [hchk, hfw]
  have hdc : ¬ (distinctCount ((sortByPos evs).map NtSubEvent.codonPos) > 1) := by
    have hle := distinctCount_le_one ((sortByPos evs).map NtSubEvent.codonPos) cp
      (by
        intro x hx
        rcases List.mem_map.mp hx with ⟨v, hv, rfl⟩
        exact hcp v (mem_sortByPos.mp hv))
    omega
  obtain ⟨v0, rest, hsort⟩ : ∃ v0 rest, sortByPos evs = v0 :: rest := by
    cases hs : sortByPos evs with
    | nil => exact absurd hs (sortByPos_ne_nil hne)
    | cons a l => exact ⟨a, l, rfl⟩
  have hv0mem : v0 ∈ evs := mem_sortByPos.mp (by rw [hsort]; simp)
  have hv0cp : v0.codonPos = cp := hcp v0 hv0mem
  -- the wild-type codon's character list, via the chunk lemma
  obtain ⟨ds, hds, hmk⟩ : ∃ ds, (chunks3 wt.data)[(cp - 1).toNat]? = some ds ∧
      String.mk ds = wtCodon := by
    rw [slicer3, List.getElem?_map] at hcodon
    rcases Option.map_eq_some'.mp hcodon with ⟨ds, hds, hmk⟩
    exact ⟨ds, hds, hmk⟩
  have hdata : wtCodon.data = ds := by rw [← hmk]
  -- splicing a forced event back into the wild-type codon is the identity
  have hsplice : ∀ x ∈ (sortByPos evs).map (forceWt wt),
      spliceStep wtCodon x = Except.ok wtCodon := by
    intro x hx
    rcases List.mem_map.mp hx with ⟨v, hv, rfl⟩
    have hvmem : v ∈ evs := mem_sortByPos.mp hv
    obtain ⟨c, hc, _, _, hfw⟩ := hforce v hvmem
    obtain ⟨h1, h2⟩ := hpos v hvmem
    have hvc : v.codonPos = cp := hcp v hvmem
    rw [NtSubEvent.codonPos] at hvc
    have harith : ((v.position - 1) % 3 + 1 - 1).toNat < 3
        ∧ 3 * (cp - 1).toNat + ((v.position - 1) % 3 + 1 - 1).toNat
          = (v.position - 1).toNat := by omega
    have hk : wtCodon.data[((v.position - 1) % 3 + 1 - 1).toNat]? = some c := by
      rw [hdata,
        chunks3_getElem wt.data (cp - 1).toNat ds hds _ harith.1, harith.2, hc]
    rw [spliceStep, hfw]
    simp only [NtSubEvent.framePos]
    rw [splice_eq_self hk]
  have hfold : foldlME spliceStep wtCodon ((sortByPos evs).map (forceWt wt)) =
      Except.ok wtCodon := foldlME_const _ _ _ hsplice
  have hctg : codonTableGet (pyUpper wtCodon) = Except.ok wa := by
    rw [codonTableGet, hct]
  have haag : aaCodesGet wa = Except.ok aa3 := by
    rw [aaCodesGet, haa]
  rw [infer_silent_aa_substitution, hp]
  simp only [bindE_ok]
  rw [if_neg hdc, hmapchk]
  simp only [bindE_ok]
  rw [hsort, List.map_cons, pyGetItem_zero]
  simp only [bindE_ok]
  rw [forceWt_codonPos, hv0cp, pyGetItem_of_getElem (by omega) hcodon]
  simp only [bindE_ok]
  rw [← List.map_cons, ← hsort, hfold]
  simp only [bindE_ok]
  rw [hctg]
  simp only [bindE_ok]
  rw [haag]
  simp only [bindE_ok]
  rw [if_neg (by simp : ¬ aa3 ≠ aa3)]

/-- Witness for C1: the silent event c.4= against ATGAAACTG is forced to the
wild-type base A and yields p.Lys2=, the translation of the wild-type codon
AAA at codon position 2. -/
theorem c1_infer_silent_group_witness :
    infer_silent_aa_substitution "ATGAAACTG" 0 ["c.4="] "row" = Except.ok "p.Lys2="
    ∧ infer_check_event "ATGAAACTG" 0 "row" ⟨'c', 4, none, none, "c.4="⟩ =
        Except.ok ⟨'c', 4, some 'A', some 'A', "c.4="⟩ := by
  refine ⟨?_, by decide⟩
  rw [(c1_infer_silent_group "ATGAAACTG" 0 "row" ["c.4="]
    [⟨'c', 4, none, none, "c.4="⟩] 2 "AAA" 'K' "Lys" (by decide) (by decide) (by decide)
    (by decide) (by decide) (by decide) (by decide) (by decide)).2]
  decide
